import Mathlib

/-!
# Verification of the React18-Design-Patterns routing and loader demos

Shallow embedding of the two demo applications in this repository:

* the "Routing App" (`src/routing-app/src`): a declarative route table
  (`routes.tsx`) and a `Contacts` view (`components/Contacts.tsx`) that
  reads a `contactId` URL parameter, coerces it JavaScript-style, and
  either renders a single contact or the full demo list;
* the "Pokemon App" (`src/unnamed/part_002`): a `dataLoader` that fetches
  a pokemon list and a `Pokemons` view that renders it.

JavaScript semantics that matter here (loose equality, `ToNumber`
coercion on strings, truthiness of arrays, `undefined` property access
throwing `TypeError`) are embedded explicitly.  Fallible rendering is
`Except`; the `useState`-held contact list is passed as explicit state.
-/

namespace React18

/-! ## JavaScript value semantics -/

/-- A JS `TypeError` thrown during rendering (e.g. destructuring or
calling a method on `undefined`). -/
inductive JSError where
  | typeError (msg : String)
deriving Repr, DecidableEq

/-- JS `String.prototype.split` with a one-character separator,
written over the character list: every maximal (possibly empty) group
between separators is kept, so `"a//b".split("/") = ["a", "", "b"]` and
`"".split("/") = [""]`. -/
def jsSplitAux (sep : Char) : List Char → List (List Char)
  | [] => [[]]
  | c :: cs =>
    let r := jsSplitAux sep cs
    if c = sep then [] :: r
    else
      match r with
      | [] => [[c]]
      | g :: gs => (c :: g) :: gs

/-- `s.split(sep)` for a one-character separator. -/
def jsSplit (sep : Char) (s : String) : List String :=
  (jsSplitAux sep s.toList).map fun l => String.mk l

/-- The numeric value of one decimal digit (48 is the code point of
the zero digit), `none` otherwise. -/
def digitVal (c : Char) : Option Nat :=
  if c.isDigit then some (c.toNat - 48) else none

/-- Parse a run of decimal digits left to right; any non-digit makes
the whole string non-numeric. -/
def jsDigitsAux : List Char → Nat → Option Nat
  | [], acc => some acc
  | c :: cs, acc =>
    match digitVal c with
    | some d => jsDigitsAux cs (acc * 10 + d)
    | none => none

/-- A non-empty all-digit character list parses to its value. -/
def jsDigits : List Char → Option Nat
  | [] => none
  | cs => jsDigitsAux cs 0

/-- The characters `ToNumber` trims: the ECMAScript WhiteSpace and
LineTerminator sets (TAB, LF, VT, FF, CR, space, NBSP, Ogham space,
the U+2000 block, LS, PS, NNBSP, MMSP, ideographic space, ZWNBSP). -/
def jsWhitespace (c : Char) : Bool :=
  let n := c.toNat
  decide ((9 ≤ n ∧ n ≤ 13) ∨ n = 32 ∨ n = 160 ∨ n = 5760 ∨
    (8192 ≤ n ∧ n ≤ 8202) ∨ n = 8232 ∨ n = 8233 ∨ n = 8239 ∨
    n = 8287 ∨ n = 12288 ∨ n = 65279)

/-- Strip leading and trailing JS whitespace. -/
def jsTrim (cs : List Char) : List Char :=
  ((cs.dropWhile jsWhitespace).reverse.dropWhile jsWhitespace).reverse

/-- The value of a hexadecimal digit (48, 97 and 65 are the code
points of the zero digit and of the lower- and upper-case letter a),
`none` otherwise. -/
def hexVal (c : Char) : Option Nat :=
  if c.isDigit then some (c.toNat - 48)
  else if 97 ≤ c.toNat ∧ c.toNat ≤ 102 then some (c.toNat - 87)
  else if 65 ≤ c.toNat ∧ c.toNat ≤ 70 then some (c.toNat - 55)
  else none

/-- A digit of the given base (2, 8 or 16), read through `hexVal`. -/
def baseDigitVal (base : Nat) (c : Char) : Option Nat :=
  match hexVal c with
  | some d => if d < base then some d else none
  | none => none

/-- Parse a run of digits of the given base left to right; any
out-of-base character makes the run non-numeric. -/
def digitsBaseAux (base : Nat) : List Char → Nat → Option Nat
  | [], acc => some acc
  | c :: cs, acc =>
    match baseDigitVal base c with
    | some d => digitsBaseAux base cs (acc * base + d)
    | none => none

/-- A non-empty digit run of the given base parses to its value. -/
def digitsBase (base : Nat) : List Char → Option Nat
  | [] => none
  | cs => digitsBaseAux base cs 0

/-- A possibly empty all-digit run (for the parts around a decimal
point, each of which may be empty as in `"5."` and `".5"`). -/
def optDigits : List Char → Option Nat
  | [] => some 0
  | cs => jsDigits cs

/-- Split a character list at the first character satisfying `p`:
the prefix before it and, when it occurs, the remainder after it. -/
def splitFirst (p : Char → Bool) : List Char → List Char × Option (List Char)
  | [] => ([], none)
  | c :: cs =>
    if p c then ([], some cs)
    else
      let r := splitFirst p cs
      (c :: r.1, r.2)

/-- The result of a successful `ToNumber` conversion: an exact decimal
`num / 10 ^ scale`, or an infinity.  The denoted value is what the
view's comparisons consume; IEEE-754 double rounding of that value
(53-bit precision, overflow to the infinities, underflow to zero) is
floating-point behaviour that is not modelled — it cannot change which
strings convert (the `NaN` set), only the converted value at extreme
literals, and every theorem below evaluates values only at
exactly-representable inputs. -/
inductive JSNum where
  | finite (num : Int) (scale : Nat)
  | posInf
  | negInf
deriving Repr, DecidableEq

/-- JS unary minus on a converted value. -/
def JSNum.neg : JSNum → JSNum
  | .finite n s => .finite (-n) s
  | .posInf => .negInf
  | .negInf => .posInf

/-- `v > 0` for a converted value: the sign of the exact value. -/
def JSNum.gtZero : JSNum → Bool
  | .finite n _ => decide (0 < n)
  | .posInf => true
  | .negInf => false

/-- `id == v` for an integer `id` against a converted value:
`id = n / 10 ^ s` exactly; the infinities equal no integer. -/
def JSNum.eqInt (id : Int) : JSNum → Bool
  | .finite n s => decide (n = id * (10 : Int) ^ s)
  | _ => false

/-- The `StrDecimalDigits` mantissa: `digits`, `digits . digits?` or
`. digits`, as an unsigned exact decimal `(num, scale)`; a lone dot or
any non-digit fails. -/
def parseMantissa (cs : List Char) : Option (Nat × Nat) :=
  match splitFirst (fun c => c = '.') cs with
  | (ip, none) => (jsDigits ip).map fun n => (n, 0)
  | (ip, some fp) =>
    if ip.isEmpty && fp.isEmpty then none
    else
      match optDigits ip, optDigits fp with
      | some i, some f => some (i * 10 ^ fp.length + f, fp.length)
      | _, _ => none

/-- An `ExponentPart` after the `e`/`E`: optionally signed non-empty
decimal digits. -/
def parseExp : List Char → Option Int
  | '+' :: cs => (jsDigits cs).map fun n => (n : Int)
  | '-' :: cs => (jsDigits cs).map fun n => -(n : Int)
  | cs => (jsDigits cs).map fun n => (n : Int)

/-- Shift an exact decimal by a power of ten. -/
def applyExp (m : Nat × Nat) (e : Int) : Nat × Nat :=
  if 0 ≤ e then (m.1 * 10 ^ e.toNat, m.2) else (m.1, m.2 + (-e).toNat)

/-- An unsigned decimal literal value: mantissa with an optional
exponent part. -/
def parseDecValue (cs : List Char) : Option (Nat × Nat) :=
  match splitFirst (fun c => c = 'e' || c = 'E') cs with
  | (mant, none) => parseMantissa mant
  | (mant, some ecs) =>
    match parseMantissa mant, parseExp ecs with
    | some m, some e => some (applyExp m e)
    | _, _ => none

/-- `StrUnsignedDecimalLiteral`: the literal `Infinity` or a decimal
value. -/
def parseUnsignedDec (cs : List Char) : Option JSNum :=
  if cs = "Infinity".toList then some .posInf
  else (parseDecValue cs).map fun m => .finite (m.1 : Int) m.2

/-- `StrNumericLiteral`: a hex, octal or binary integer literal (which
admits no sign), or an optionally signed decimal literal. -/
def parseNumericLiteral (cs : List Char) : Option JSNum :=
  match cs with
  | '0' :: 'x' :: rest => (digitsBase 16 rest).map fun n => .finite (n : Int) 0
  | '0' :: 'X' :: rest => (digitsBase 16 rest).map fun n => .finite (n : Int) 0
  | '0' :: 'o' :: rest => (digitsBase 8 rest).map fun n => .finite (n : Int) 0
  | '0' :: 'O' :: rest => (digitsBase 8 rest).map fun n => .finite (n : Int) 0
  | '0' :: 'b' :: rest => (digitsBase 2 rest).map fun n => .finite (n : Int) 0
  | '0' :: 'B' :: rest => (digitsBase 2 rest).map fun n => .finite (n : Int) 0
  | '+' :: rest => parseUnsignedDec rest
  | '-' :: rest => (parseUnsignedDec rest).map JSNum.neg
  | other => parseUnsignedDec other

/-- JS `ToNumber` on a string, following the ECMAScript
`StringToNumber` grammar: trim whitespace, the empty remainder is `0`,
otherwise parse a `StrNumericLiteral` — signed decimal with optional
fraction and exponent, `Infinity`, or an unsigned hex/octal/binary
integer literal; everything else is `NaN` (`none`). -/
def jsNumber (s : String) : Option JSNum :=
  match jsTrim s.toList with
  | [] => some (.finite 0 0)
  | cs => parseNumericLiteral cs

/-- The JS value bound by `const { contactId = 0 } = useParams()`:
either the default number `0` (parameter absent) or the raw string
segment from the URL. -/
inductive JSParam where
  | num (n : Int)
  | str (s : String)
deriving Repr, DecidableEq

/-- JS `contactId > 0`.  A string operand is coerced with `ToNumber`;
any comparison with `NaN` is `false`. -/
def jsGtZero : JSParam → Bool
  | .num n => decide (0 < n)
  | .str s => (jsNumber s).elim false JSNum.gtZero

/-- JS loose equality `id == contactId` for a number `id` against the
parameter value: a string operand is coerced with `ToNumber`, and
`NaN` is equal to nothing. -/
def jsLooseEq (id : Int) : JSParam → Bool
  | .num n => decide (id = n)
  | .str s => (jsNumber s).elim false (JSNum.eqInt id)

/-! ## Routing App: data model (`components/Contacts.tsx`) -/

structure Contact where
  id : Int
  name : String
  email : String
  phone : String
deriving Repr, DecidableEq

/-- The in-memory demo contact list `data` from `Contacts.tsx`. -/
def data : List Contact :=
  [ { id := 1, name := "Carlos Santana",
      email := "carlos.santana@dev.education", phone := "415-307-3112" },
    { id := 2, name := "John Smith",
      email := "john.smith@dev.education", phone := "223-344-5122" },
    { id := 3, name := "Alexis Nelson",
      email := "alexis.nelson@dev.education", phone := "664-291-4477" } ]

/-- What the `Contacts` component renders: the full list (`renderContacts`)
or a single contact's name, email and phone (`renderSingleContact`). -/
inductive ContactsView where
  | fullList (cs : List Contact)
  | single (name email phone : String)
deriving Repr, DecidableEq

/-- Embedding of the `Contacts` component body.

* `param` is `useParams().contactId` (`none` when the URL has no
  identifier segment), so `contactId = 0` by JS destructuring default
  when absent.
* `contacts` is the `useState` list (initialised from `data`); the
  component is state-passing, returning the list it holds after the
  render — `setContacts` is never called in the source, so the returned
  list is the input list.
* `selectedContact` starts as `false` and, when `contactId > 0`, becomes
  the array `contacts.filter(contact => contact.id == contactId)`.
  A JS array is truthy even when empty, so the ternary
  `selectedContact ? renderSingleContact(selectedContact[0]) : renderContacts()`
  calls `renderSingleContact(undefined)` whenever the filter found
  nothing, and destructuring `{ name, email, phone }` from `undefined`
  throws a `TypeError`. -/
def Contacts (param : Option String) (contacts : List Contact) :
    Except JSError ContactsView × List Contact :=
  let contactId : JSParam :=
    match param with
    | none => .num 0
    | some s => .str s
  let body : Except JSError ContactsView :=
    if jsGtZero contactId then
      let selectedContact := contacts.filter fun c => jsLooseEq c.id contactId
      match selectedContact.head? with
      | some c => .ok (.single c.name c.email c.phone)
      | none =>
        .error (.typeError "Cannot destructure property of undefined")
    else
      .ok (.fullList contacts)
  (body, contacts)

/-! ## Routing App: route table (`routes.tsx`) and matcher

The route table is the source's `AppRoutes` tree.  The matching engine
itself is the third-party routing library, not code of this repository;
it is modelled from the spec (section 4.1). -/

/-- A path-pattern segment: a literal or a named parameter. -/
inductive Seg where
  | lit (s : String)
  | param (name : String)
deriving Repr, DecidableEq

/-- The view each route renders. -/
inductive RouteView where
  | home
  | about
  | contact
  | contacts
  | error404
deriving Repr, DecidableEq

/-- The route table of `AppRoutes` (`routes.tsx`), in source order:
`"/"`, `"/about"`, `"/contact"`, `"/contacts"`, `"/contacts/:contactId"`.
The wildcard `"*"` fallback to `Error404` is handled by `matchRouteSegs`
below, after every declared entry has failed. -/
def AppRoutes : List (List Seg × RouteView) :=
  [ ([], .home),
    ([.lit "about"], .about),
    ([.lit "contact"], .contact),
    ([.lit "contacts"], .contacts),
    ([.lit "contacts", .param "contactId"], .contacts) ]

/-- Path decomposition into non-empty segments (leading and trailing
slashes are ignored by the matcher). -/
def pathSegments (p : String) : List String :=
  (jsSplit '/' p).filter (fun s => s ≠ "")

/-- Modelled from the spec: section 4.1's segment matching, missing from
`src/` because it lives in the routing library.  A pattern matches a
path of the same length segmentwise; a literal must be equal, a named
parameter binds any segment. -/
def matchSegs : List Seg → List String → Option (List (String × String))
  | [], [] => some []
  | .lit s :: pat, seg :: segs =>
    if seg = s then matchSegs pat segs else none
  | .param n :: pat, seg :: segs =>
    (matchSegs pat segs).map fun b => (n, seg) :: b
  | _, _ => none

/-- Modelled from the spec: section 4.1's route resolution over the
table, missing from `src/` because it lives in the routing library.
The first declared entry that matches wins; the wildcard fallback
(`Error404`) is selected when none does. -/
def matchRouteSegs (segs : List String) : RouteView × List (String × String) :=
  match AppRoutes.findSome? (fun pv => (matchSegs pv.1 segs).map fun b => (pv.2, b)) with
  | some r => r
  | none => (.error404, [])

/-- Route resolution on a raw path string. -/
def matchRoute (path : String) : RouteView × List (String × String) :=
  matchRouteSegs (pathSegments path)

/-- What a navigation in the Routing App renders. -/
inductive AppView where
  | home
  | about
  | contact
  | error404
  | contactsView (v : ContactsView)
deriving Repr, DecidableEq

/-- One navigation of the Routing App: resolve the path against the
route table, then render the matched view; the `Contacts` view receives
its `contactId` binding and the `useState` contact list, which it
returns (possibly updated — in this source, never) as the second
component. -/
def renderApp (path : String) (contacts : List Contact) :
    Except JSError AppView × List Contact :=
  match matchRoute path with
  | (.home, _) => (.ok .home, contacts)
  | (.about, _) => (.ok .about, contacts)
  | (.contact, _) => (.ok .contact, contacts)
  | (.error404, _) => (.ok .error404, contacts)
  | (.contacts, b) =>
    let r := Contacts (b.lookup "contactId") contacts
    (r.1.map .contactsView, r.2)

/-! ## Pokemon App: loader and view (`src/unnamed/part_002`) -/

/-- A pokemon summary as fetched: `{ name: string, url: string }`. -/
structure PokeData where
  name : String
  url : String
deriving Repr, DecidableEq

/-- How the `fetch` inside `dataLoader` settles: a response with an HTTP
status and (when parsed) a `results` array, or a network failure
(`fetch` rejects). -/
inductive FetchOutcome where
  | response (status : Nat) (results : List PokeData)
  | networkFailure
deriving Repr, DecidableEq

/-- `Response.ok`: status in the 2xx range. -/
def responseOk (status : Nat) : Bool :=
  decide (200 ≤ status ∧ status < 300)

/-- The observable outcome of one `dataLoader` run: the value its
promise fulfills with (`none` embeds the implicit `undefined` of the
`catch` branch) and how many times `console.error` was called. -/
structure LoaderOutcome where
  value : Option (List PokeData)
  errorLogs : Nat
deriving Repr, DecidableEq

/-- Embedding of `dataLoader`.  On a non-2xx response it throws
`Error("API request failed with status ...")`, which its own
`try`/`catch` catches; the `catch` branch logs once via `console.error`
and falls off the function, so the async function's promise fulfills
with `undefined` — it never rejects.  A rejected `fetch` (network
failure) takes the same `catch` path. -/
def dataLoader : FetchOutcome → LoaderOutcome
  | .networkFailure => ⟨none, 1⟩
  | .response status results =>
    if responseOk status then ⟨some results, 0⟩ else ⟨none, 1⟩

/-- The router's loader-result state for a route entry, the
`pending → (success | error)` union of spec section 4.2.  The router
moves to `error` only when the loader's promise rejects and to
`success v` when it fulfills with `v`. -/
inductive LoaderResult where
  | pending
  | success (v : Option (List PokeData))
  | error (reason : String)
deriving Repr, DecidableEq

/-- The loader result the router records once `dataLoader` settles.
Because `dataLoader` swallows every exception, its promise always
fulfills, so the router always records `success` — with `none`
(`undefined`) on the failure path, never `error`. -/
def routerLoaderResult (f : FetchOutcome) : LoaderResult :=
  .success (dataLoader f).value

/-- Whether a loader result is the `error` state. -/
def LoaderResult.isError : LoaderResult → Bool
  | .error _ => true
  | _ => false

/-- The sprite base URL constant `imgUrl` from `Pokemons` (note: it
already ends in a slash). -/
def imgUrl : String :=
  "https://raw.githubusercontent.com/PokeAPI/sprites/master/sprites/pokemon/"

/-- `pokemon.url.split('/').slice(-2)[0]`: split on `/` and take the
second-to-last element (JS `slice(-2)` of a one-element array is that
array, so its `[0]` is the sole element; `split` never returns an empty
array, and in `Nat` subtraction `1 - 2 = 0`, so `getD (length - 2)`
reproduces both cases). -/
def spriteSeg (url : String) : String :=
  let parts := jsSplit '/' url
  parts.getD (parts.length - 2) ""

/-- One rendered pokemon entry: the displayed number `index + 1`, the
name, the `<img src>` and the details link `href`. -/
structure RenderedPokemon where
  number : Nat
  name : String
  imgSrc : String
  detailsHref : String
deriving Repr, DecidableEq

/-- The body of `pokemons.map((pokemon, index) => ...)` over the list,
in order, with `src={imgUrl + "/" + url.split('/').slice(-2)[0] + ".png"}`. -/
def renderPokemonList (ps : List PokeData) : List RenderedPokemon :=
  ps.enum.map fun ip =>
    ⟨ip.1 + 1, ip.2.name, imgUrl ++ "/" ++ spriteSeg ip.2.url ++ ".png", ip.2.url⟩

/-- Embedding of the `Pokemons` view once navigation has settled
(`navigation.state ≠ 'loading'`): `useLoaderData()` yields the loader's
fulfilled value; when that value is `undefined` (the loader's failure
path), `pokemons.map` throws a `TypeError`; otherwise the list renders. -/
def Pokemons (loaderData : Option (List PokeData)) :
    Except JSError (List RenderedPokemon) :=
  match loaderData with
  | none => .error (.typeError "Cannot read properties of undefined (reading map)")
  | some ps => .ok (renderPokemonList ps)

/-! ## Navigation ordering and the stale-result guard

Modelled from the spec: sections 4.2 and 5 describe the routing
library's stale-result guard, which is not code under `src/`.  A
navigation carries a sequence number; a loader result arrives tagged
with the sequence number of the navigation that started it and is
applied only when that navigation is still the current one. -/

/-- Navigation state: the sequence number of the current (most recent)
navigation and the loader result currently applied for rendering,
tagged with the sequence number of the navigation it belongs to. -/
structure NavState where
  seq : Nat
  rendered : Option (Nat × List PokeData)
deriving Repr, DecidableEq

/-- Events of the navigation machine: a new navigation is issued, or
the loader started by navigation number `n` settles with value `v`. -/
inductive NavEvent where
  | navigate
  | loaderSettled (n : Nat) (v : List PokeData)
deriving Repr, DecidableEq

/-- Modelled from the spec: one transition.  A navigation increments the
sequence number and clears the applied result; a settling loader is
applied only if it belongs to the current navigation, and a stale result
is discarded, leaving the state unchanged. -/
def navStep (s : NavState) : NavEvent → NavState
  | .navigate => ⟨s.seq + 1, none⟩
  | .loaderSettled n v => if n = s.seq then ⟨s.seq, some (n, v)⟩ else s

/-- The initial navigation state. -/
def navInit : NavState := ⟨0, none⟩

/-- Run the machine over a sequence of events. -/
def navRun (es : List NavEvent) : NavState :=
  es.foldl navStep navInit

/-- The stale-result invariant: whatever result is applied for
rendering belongs to the current navigation. -/
def NavState.consistent (s : NavState) : Prop :=
  ∀ n v, s.rendered = some (n, v) → n = s.seq

theorem navStep_consistent {s : NavState} (hs : s.consistent)
    (e : NavEvent) : (navStep s e).consistent := by
  cases e with
  | navigate =>
    intro n v hnv
    simp [navStep] at hnv
  | loaderSettled m v =>
    intro n w hnw
    by_cases hm : m = s.seq
    · subst hm
      simp [navStep] at hnw ⊢
      exact hnw.1.symm
    · simp [navStep, hm] at hnw ⊢
      exact hs n w hnw

theorem navRun_consistent (es : List NavEvent) : (navRun es).consistent := by
  have h : ∀ (l : List NavEvent) (s : NavState),
      s.consistent → (l.foldl navStep s).consistent := by
    intro l
    induction l with
    | nil => exact fun s hs => hs
    | cons e l ih => exact fun s hs => ih _ (navStep_consistent hs e)
  refine h es navInit fun n v hnv => ?_
  simp [navInit] at hnv

/-! ## Claims -/

/-- C1: the claim asserts that when the Pokemon loader's fetch resolves
with a non-2xx status (e.g. 500), the loader catches the failure, logs
exactly one error, and the Pokemons view renders zero list items
without crashing.  The code does catch and log exactly once, with no
unhandled rejection — but the `catch` branch returns `undefined`, not an
empty array, so the view's `pokemons.map(...)` throws a `TypeError`:
the view crashes instead of rendering an empty list.  This theorem
evaluates the embedding at the failing input (status 500). -/
theorem C1_loader_500_logs_once_but_view_crashes :
    (dataLoader (.response 500 [])).errorLogs = 1 ∧
    (dataLoader (.response 500 [])).value = none ∧
    Pokemons (dataLoader (.response 500 [])).value =
      .error (.typeError "Cannot read properties of undefined (reading map)") :=
  ⟨rfl, rfl, rfl⟩

/-- C2: the claim asserts that for a path `/contacts/{k}` with numeric
`k > 0` matching no record (e.g. `/contacts/999`), the Contacts view
renders a "not found" state without crashing.  In the code,
`contacts.filter(...)` returns the empty array, which is truthy in JS,
so `renderSingleContact(selectedContact[0])` destructures `undefined`
and throws a `TypeError`: rendering `/contacts/999` crashes.  This
theorem evaluates the embedding at the failing input. -/
theorem C2_contacts_999_crashes :
    matchRoute "/contacts/999" = (.contacts, [("contactId", "999")]) ∧
    renderApp "/contacts/999" data =
      (.error (.typeError "Cannot destructure property of undefined"), data) :=
  ⟨by decide, rfl⟩

/-- C3 counterexample: at HTTP status 500 the loader does NOT surface a
loader error — its promise fulfills, so the router's loader-result is
`success` carrying `undefined` (a non-error value), and is not in the
`error` state.  This refutes the claim that the loader-result state
machine transitions to `error(reason)` for non-2xx responses. -/
theorem C3_counterexample :
    routerLoaderResult (.response 500 []) = .success none ∧
    (routerLoaderResult (.response 500 [])).isError = false :=
  ⟨rfl, rfl⟩

/-- C3 amended: for every non-2xx response the loader throws
internally, catches the exception at its own boundary, logs exactly one
error via `console.error`, and its promise fulfills with `undefined` —
the router records `success none`, never the `error` state, so no error
reason reaches the view through the loader result. -/
theorem C3_amended_non2xx_caught_logged_resolves_undefined
    (status : Nat) (results : List PokeData)
    (h : responseOk status = false) :
    routerLoaderResult (.response status results) = .success none ∧
    (dataLoader (.response status results)).errorLogs = 1 := by
  simp [routerLoaderResult, dataLoader, h]

theorem C3_amended_witness :
    responseOk 500 = false ∧
    (routerLoaderResult (.response 500 []) = .success none ∧
      (dataLoader (.response 500 [])).errorLogs = 1) :=
  ⟨by decide, C3_amended_non2xx_caught_logged_resolves_undefined 500 [] (by decide)⟩

/-- C4 counterexample: at the claim's own input `/contacts/42` the
matcher does bind `contactId = "42"`, but no demo record has id 42
(ids are 1, 2, 3), so the filter result is empty and — the empty array
being truthy — the view throws a `TypeError` instead of rendering a
single contact's name, email and phone. -/
theorem C4_counterexample :
    matchRoute "/contacts/42" = (.contacts, [("contactId", "42")]) ∧
    data.filter (fun c => jsLooseEq c.id (.str "42")) = [] ∧
    renderApp "/contacts/42" data =
      (.error (.typeError "Cannot destructure property of undefined"), data) :=
  ⟨by decide, by decide, rfl⟩

/-- C4 amended: for `/contacts/42` the matcher binds
`contactId = "42"` and the view's filter selects exactly the records
whose numeric id loosely equals the parameter — for the demo data that
set is empty and the render then throws.  For a numeric parameter whose
filter selects exactly one record (as for ids 1, 2, 3), the view
renders that single contact's name, email and phone instead of the
full list. -/
theorem C4_amended_binding_and_selection :
    matchRoute "/contacts/42" = (.contacts, [("contactId", "42")]) ∧
    data.filter (fun c => jsLooseEq c.id (.str "42")) = [] ∧
    ∀ (s : String) (c : Contact),
      jsGtZero (.str s) = true →
      data.filter (fun c' => jsLooseEq c'.id (.str s)) = [c] →
      (Contacts (some s) data).1 = .ok (.single c.name c.email c.phone) := by
  refine ⟨by decide, by decide, fun s c h1 h2 => ?_⟩
  simp [Contacts, h1, h2]

theorem C4_amended_witness :
    jsGtZero (.str "2") = true ∧
    data.filter (fun c' => jsLooseEq c'.id (.str "2")) =
      [{ id := 2, name := "John Smith",
         email := "john.smith@dev.education", phone := "223-344-5122" }] ∧
    (Contacts (some "2") data).1 =
      .ok (.single "John Smith" "john.smith@dev.education" "223-344-5122") :=
  ⟨by decide, by decide,
    C4_amended_binding_and_selection.2.2 "2"
      { id := 2, name := "John Smith",
        email := "john.smith@dev.education", phone := "223-344-5122" }
      (by decide) (by decide)⟩

/-- C5: navigating to `/contacts` (no trailing identifier) matches the
literal route with no bindings; the absent `contactId` defaults to the
number 0 via JS destructuring, `0 > 0` is false ("no selection"), and
the view renders the full contacts list without error. -/
theorem C5_absent_param_defaults_zero_full_list :
    matchRoute "/contacts" = (.contacts, []) ∧
    jsGtZero (.num 0) = false ∧
    renderApp "/contacts" data = (.ok (.contactsView (.fullList data)), data) :=
  ⟨by decide, rfl, rfl⟩

/-- C6: whenever the bound `contactId` string fails JS numeric
conversion — it lies outside the ECMAScript `StringToNumber` grammar,
so `ToNumber` yields `NaN` — the guard `contactId > 0` is false and
the parameter is treated as unset: the view renders the full list, no
contact is selected, and no error is thrown.  (Strings the grammar
does convert, such as `"1.5"` or `"+3"`, are outside this hypothesis
and take the `contactId > 0` branch, as in the source.) -/
theorem C6_coercion_failure_treated_as_unset
    (s : String) (h : jsNumber s = none) :
    Contacts (some s) data = (.ok (.fullList data), data) := by
  simp [Contacts, jsGtZero, h]

theorem C6_witness :
    jsNumber "abc" = none ∧
    Contacts (some "abc") data = (.ok (.fullList data), data) :=
  ⟨by decide, C6_coercion_failure_treated_as_unset "abc" (by decide)⟩

/-- C7: any path on which every declared literal/parameter route entry
fails to match falls through to the wildcard entry: the matcher selects
the `Error404` fallback with no bindings, the app renders the dedicated
not-found view, and no exception arises (the matcher and render are
total). -/
theorem C7_unmatched_path_renders_error404
    (path : String)
    (h : ∀ pv ∈ AppRoutes, matchSegs pv.1 (pathSegments path) = none) :
    matchRoute path = (.error404, []) ∧
    renderApp path data = (.ok .error404, data) := by
  have hn : AppRoutes.findSome?
      (fun pv => (matchSegs pv.1 (pathSegments path)).map fun b => (pv.2, b)) =
      none := by
    refine List.findSome?_eq_none_iff.mpr fun pv hpv => ?_
    rw [h pv hpv]
    rfl
  have hm : matchRoute path = (.error404, []) := by
    unfold matchRoute matchRouteSegs
    rw [hn]
  exact ⟨hm, by simp [renderApp, hm]⟩

theorem C7_witness :
    (∀ pv ∈ AppRoutes, matchSegs pv.1 (pathSegments "/nope") = none) ∧
    (matchRoute "/nope" = (.error404, []) ∧
      renderApp "/nope" data = (.ok .error404, data)) :=
  ⟨by decide, C7_unmatched_path_renders_error404 "/nope" (by decide)⟩

/-- C8: in the navigation machine (modelled from the spec's stale-result
guard, sections 4.2 and 5), a loader result belonging to a superseded
navigation is discarded on arrival — the transition leaves the state
unchanged — and in every reachable state the applied (rendered) result
carries the sequence number of the current navigation, so a stale
result is never rendered. -/
theorem C8_stale_result_never_rendered :
    (∀ (s : NavState) (n : Nat) (v : List PokeData),
        n ≠ s.seq → navStep s (.loaderSettled n v) = s) ∧
    ∀ (es : List NavEvent) (n : Nat) (v : List PokeData),
      (navRun es).rendered = some (n, v) → n = (navRun es).seq := by
  constructor
  · intro s n v hn
    simp [navStep, hn]
  · intro es n v h
    exact navRun_consistent es n v h

theorem C8_witness :
    ((1 : Nat) ≠ (NavState.mk 2 none).seq ∧
      navStep ⟨2, none⟩ (.loaderSettled 1 []) = ⟨2, none⟩) ∧
    ((navRun [.loaderSettled 0 []]).rendered = some (0, []) ∧
      (0 : Nat) = (navRun [.loaderSettled 0 []]).seq) :=
  ⟨⟨by decide, C8_stale_result_never_rendered.1 ⟨2, none⟩ 1 [] (by decide)⟩,
    ⟨by decide, C8_stale_result_never_rendered.2 [.loaderSettled 0 []] 0 [] (by decide)⟩⟩

/-- C9: the startup-constructed data is never mutated.  The demo list
holds exactly the three records with ids 1, 2, 3; the `Contacts`
component never calls `setContacts`, so its held list is returned
unchanged for every parameter and every list; and a whole navigation
render leaves the contact list unchanged for every path.  The route
table `AppRoutes` is a closed top-level constant that no operation
writes. -/
theorem C9_render_never_mutates_data :
    (data.map fun c => c.id) = [1, 2, 3] ∧
    (∀ (param : Option String) (cs : List Contact),
      (Contacts param cs).2 = cs) ∧
    ∀ (path : String) (cs : List Contact),
      (renderApp path cs).2 = cs := by
  refine ⟨by decide, fun param cs => rfl, fun path cs => ?_⟩
  unfold renderApp
  rcases matchRoute path with ⟨v, b⟩
  cases v <;> simp [Contacts]

/-- C10: a successfully loaded pokemon list renders without error, in
fetched order (the rendered list has the same length and the item at
every index `i` is built from the fetched item at `i`), numbered
`i + 1`, with the image source equal to the sprite base URL constant
followed by `/`, the second-to-last slash-separated segment of the
item's `url` (JS `url.split('/').slice(-2)[0]`), and `.png`. -/
theorem C10_pokemons_render_order_numbering_sprites
    (ps : List PokeData) (i : Nat) (h : i < ps.length) :
    Pokemons (some ps) = .ok (renderPokemonList ps) ∧
    (renderPokemonList ps).length = ps.length ∧
    (renderPokemonList ps)[i]? =
      some ⟨i + 1, ps[i].name,
        imgUrl ++ "/" ++ spriteSeg ps[i].url ++ ".png", ps[i].url⟩ := by
  refine ⟨rfl, by simp [renderPokemonList], ?_⟩
  simp [renderPokemonList, List.getElem?_map, List.getElem?_enum, h]

theorem C10_witness :
    (1 : Nat) < (List.length
      [PokeData.mk "bulbasaur" "https://pokeapi.co/api/v2/pokemon/1/",
       PokeData.mk "ivysaur" "https://pokeapi.co/api/v2/pokemon/2/"]) ∧
    (Pokemons (some
        [PokeData.mk "bulbasaur" "https://pokeapi.co/api/v2/pokemon/1/",
         PokeData.mk "ivysaur" "https://pokeapi.co/api/v2/pokemon/2/"]) =
      .ok (renderPokemonList
        [PokeData.mk "bulbasaur" "https://pokeapi.co/api/v2/pokemon/1/",
         PokeData.mk "ivysaur" "https://pokeapi.co/api/v2/pokemon/2/"]) ∧
    (renderPokemonList
        [PokeData.mk "bulbasaur" "https://pokeapi.co/api/v2/pokemon/1/",
         PokeData.mk "ivysaur" "https://pokeapi.co/api/v2/pokemon/2/"]).length = 2 ∧
    (renderPokemonList
        [PokeData.mk "bulbasaur" "https://pokeapi.co/api/v2/pokemon/1/",
         PokeData.mk "ivysaur" "https://pokeapi.co/api/v2/pokemon/2/"])[1]? =
      some ⟨2, "ivysaur",
        imgUrl ++ "/" ++ spriteSeg "https://pokeapi.co/api/v2/pokemon/2/" ++ ".png",
        "https://pokeapi.co/api/v2/pokemon/2/"⟩) :=
  ⟨by decide,
    C10_pokemons_render_order_numbering_sprites
      [PokeData.mk "bulbasaur" "https://pokeapi.co/api/v2/pokemon/1/",
       PokeData.mk "ivysaur" "https://pokeapi.co/api/v2/pokemon/2/"] 1 (by decide)⟩

end React18
